import Mathlib

/-
Verification development for the share-it rendezvous-and-relay server
(src/app.py).  The Python module keeps two pieces of in-memory shared
state: the dictionary active_transfers mapping an OTP string to a session
record, and the ConnectionManager dictionary of live websocket
connections keyed by client id.  We embed both as association lists with
Python-dict semantics (unique keys, insertion order preserved), embed the
message handlers of websocket_endpoint as a pure step function producing
the new store plus the list of (recipient, message) pairs actually
handed to a live socket, and embed the timed behaviour (expiry sweep,
disconnect grace removal) as a small event-step system over a world
state carrying logical time.  Timestamps are integers counted in
seconds, so the 10-minute session lifetime is 600 and the grace delay
after a disconnect is 10.
-/

namespace ShareIt

/-- Session record: the value stored in active_transfers for one OTP.
Metadata records are opaque to the router, so files is a list of
strings. -/
structure Session where
  status : String
  expires_at : Int
  files : List String
  created_at : Int
  sender_id : Option String
  receiver_id : Option String
deriving DecidableEq, Repr

/-- The active_transfers dictionary: an association list from OTP to
session, with unique keys and insertion order preserved, mirroring a
Python dict. -/
abbrev Store := List (String × Session)

/-- Lookup in the store, first entry with the given key. -/
def dget (s : Store) (k : String) : Option Session :=
  match s with
  | [] => none
  | p :: rest => if p.1 = k then some p.2 else dget rest k

/-- Python dict assignment d[k] = v: replace in place if the key is
present, otherwise append at the end. -/
def dinsert (s : Store) (k : String) (v : Session) : Store :=
  match s with
  | [] => [(k, v)]
  | p :: rest => if p.1 = k then (k, v) :: rest else p :: dinsert rest k v

/-- In-place mutation of the session stored under a key, as Python
performs when assigning to a field of the inner dict. -/
def dupdate (s : Store) (k : String) (f : Session → Session) : Store :=
  s.map (fun p => if p.1 = k then (p.1, f p.2) else p)

/-- Python del d[k], as used by the removal paths. -/
def derase (s : Store) (k : String) : Store :=
  s.filter (fun p => decide (p.1 ≠ k))

/-- The fixed OTP alphabet is the decimal digits, so one draw of
secrets.choice is a value below ten; generate_otp joins the drawn
digits into a string (src/app.py, generate_otp). -/
def generate_otp (picks : List (Fin 10)) : String :=
  String.mk (picks.map (fun d => Char.ofNat (48 + d.val)))

/-- Session lifetime: 10 minutes, in seconds. -/
def sessionTtl : Int := 600

/-- Grace delay after a disconnect before the session is removed, in
seconds (src/app.py, remove_transfer_after_delay default). -/
def graceDelay : Int := 10

/-- The fresh session record that create_otp stores under the new OTP
(src/app.py lines 86-93). -/
def freshSession (now : Int) : Session :=
  { status := "pending"
    expires_at := now + sessionTtl
    files := []
    created_at := now
    sender_id := none
    receiver_id := none }

/-- Embeds cleanup_expired_transfers (src/app.py lines 60-72): an entry
is deleted exactly when current_time > expires_at, that is, kept exactly
when the deadline has not strictly passed. -/
def cleanup_expired_transfers (now : Int) (s : Store) : Store :=
  s.filter (fun p => ! decide (p.2.expires_at < now))

/-- Embeds create_otp (src/app.py lines 78-102): sweep expired sessions,
draw an OTP, store a fresh pending session under it, return the OTP.
The randomness of secrets.choice is exposed as the picks parameter.  The
source performs no membership check before the assignment. -/
def create_otp (picks : List (Fin 10)) (now : Int) (s : Store) : String × Store :=
  let s1 := cleanup_expired_transfers now s
  let otp := generate_otp picks
  (otp, dinsert s1 otp (freshSession now))

/-- Inbound typed messages of websocket_endpoint.  Fields read with
dict.get are Option-valued (absence is tolerated); fields read with a
bare subscript are also Option-valued here, and their absence raises.
A message whose type field matches no handler is unknown. -/
inductive InMsg where
  | register_otp (otp : Option String) (role : Option String)
  | file_metadata (otp : Option String) (metadata : Option String)
  | file_chunk (otp : Option String) (chunk : Option String) (file_id : Option Nat)
      (is_last : Option Bool)
  | transfer_complete (otp : Option String)
  | unknown
deriving DecidableEq, Repr

/-- Outbound messages, with their payload fields. -/
inductive OutMsg where
  | error (message : String)
  | otp_registered (message : String)
  | receiver_connected (message : String)
  | file_incoming (metadata : String)
  | file_chunk (chunk : String) (file_id : Nat) (is_last : Bool)
  | transfer_complete (message : String)
  | peer_disconnected (message : String)
deriving DecidableEq, Repr

def invalidOtpError : OutMsg :=
  .error "Invalid OTP. Please check and try again."

def senderRegistered : OutMsg :=
  .otp_registered "You are now registered as sender. Waiting for receiver..."

def receiverRegistered : OutMsg :=
  .otp_registered "You are now registered as receiver. Connecting to sender..."

def receiverConnectedMsg : OutMsg :=
  .receiver_connected "Receiver has joined. Ready to transfer files."

def transferCompleteMsg : OutMsg :=
  .transfer_complete "File transfer completed successfully."

def peerDisconnectedMsg : OutMsg :=
  .peer_disconnected "The other device disconnected."

/-- ConnectionManager.send_personal_message: deliver only when the
target id is currently registered; a transport failure is swallowed, so
from the state point of view delivery to a registered id always
yields exactly this one message. -/
def sendPersonal (conns : List String) (target : String) (msg : OutMsg) :
    List (String × OutMsg) :=
  if target ∈ conns then [(target, msg)] else []

/-- Guarded best-effort send: the source writes if target_id: before a
send_personal_message call, and a Python string is falsy exactly when it
is empty, so none and some of the empty string both skip the send. -/
def ifTruthySend (conns : List String) (target : Option String) (msg : OutMsg) :
    List (String × OutMsg) :=
  match target with
  | none => []
  | some t => if t = "" then [] else sendPersonal conns t msg

/-- Result of handling one inbound message inside the receive loop: ok
carries the new store and the messages delivered; raised means an
exception (a KeyError on a bare subscript) escaped the handler, with the
store as it stood when the exception was thrown. -/
inductive StepResult where
  | ok (transfers : Store) (sent : List (String × OutMsg))
  | raised (transfers : Store)
deriving DecidableEq, Repr

/-- Embeds the message dispatch of websocket_endpoint (src/app.py lines
108-185) for one inbound message from client_id.  Self-replies through
websocket.send_json are unconditional sends to client_id; peer sends go
through sendPersonal.  Bare subscripts data[metadata], data[chunk],
data[file_id] raise when the field is absent, before any state change of
their branch takes effect. -/
def processMessage (transfers : Store) (conns : List String) (client_id : String) :
    InMsg → StepResult
  | .register_otp otpOpt role =>
    match otpOpt with
    | none => .ok transfers [(client_id, invalidOtpError)]
    | some otp =>
      match dget transfers otp with
      | none => .ok transfers [(client_id, invalidOtpError)]
      | some _ =>
        if role = some "sender" then
          .ok (dupdate transfers otp (fun sess => { sess with sender_id := some client_id }))
            [(client_id, senderRegistered)]
        else if role = some "receiver" then
          let t2 := dupdate transfers otp (fun sess => { sess with receiver_id := some client_id })
          let sid := match dget t2 otp with
            | some sess => sess.sender_id
            | none => none
          .ok t2 ([(client_id, receiverRegistered)] ++ ifTruthySend conns sid receiverConnectedMsg)
        else
          .ok transfers []
  | .file_metadata otpOpt md =>
    match otpOpt with
    | none => .ok transfers []
    | some otp =>
      match dget transfers otp with
      | none => .ok transfers []
      | some _ =>
        match md with
        | none => .raised transfers
        | some m =>
          let t2 := dupdate transfers otp (fun s0 => { s0 with files := s0.files ++ [m] })
          let rid := match dget t2 otp with
            | some s2 => s2.receiver_id
            | none => none
          .ok t2 (ifTruthySend conns rid (.file_incoming m))
  | .file_chunk otpOpt chunkOpt fidOpt lastOpt =>
    match otpOpt with
    | none => .ok transfers []
    | some otp =>
      match dget transfers otp with
      | none => .ok transfers []
      | some sess =>
        let target_id := if sess.sender_id = some client_id then sess.receiver_id
          else sess.sender_id
        match target_id with
        | none => .ok transfers []
        | some t =>
          if t = "" then .ok transfers []
          else
            match chunkOpt, fidOpt with
            | some c, some f =>
              .ok transfers (sendPersonal conns t (.file_chunk c f (lastOpt.getD false)))
            | _, _ => .raised transfers
  | .transfer_complete otpOpt =>
    match otpOpt with
    | none => .ok transfers []
    | some otp =>
      match dget transfers otp with
      | none => .ok transfers []
      | some sess =>
        let target_id := if sess.sender_id = some client_id then sess.receiver_id
          else sess.sender_id
        match target_id with
        | none => .ok transfers []
        | some t =>
          if t = "" then .ok transfers []
          else .ok transfers (sendPersonal conns t transferCompleteMsg)
  | .unknown => .ok transfers []

/-- Truth of the guard of the disconnect cleanup loop: the client is
bound as sender or receiver of the session (src/app.py line 191). -/
def boundTo (client : String) (p : String × Session) : Bool :=
  decide (p.2.sender_id = some client) || decide (p.2.receiver_id = some client)

/-- The other bound party relative to a disconnecting client
(src/app.py line 193). -/
def otherOf (sess : Session) (client : String) : Option String :=
  if sess.sender_id = some client then sess.receiver_id else sess.sender_id

/-- Peer notifications produced by the disconnect cleanup loop, one
best-effort peer_disconnected send per affected session, evaluated
against the registry after the disconnecting client was removed. -/
def collectNotifs (conns : List String) (client : String) :
    List (String × Session) → List (String × OutMsg)
  | [] => []
  | p :: rest =>
    ifTruthySend conns (otherOf p.2 client) peerDisconnectedMsg ++ collectNotifs conns client rest

/-- How the receive loop of websocket_endpoint ended: the transport
raised WebSocketDisconnect, or some other exception escaped a message
handler and was caught by the generic except clause. -/
inductive ExitCause where
  | transportDisconnect
  | processingError
deriving DecidableEq, Repr

/-- Net effect of leaving websocket_endpoint: the resulting store and
registry, the peer_disconnected messages delivered, and the OTPs whose
delayed removal was scheduled. -/
structure ExitEffect where
  transfers : Store
  conns : List String
  notified : List (String × OutMsg)
  scheduled : List String
deriving DecidableEq, Repr

/-- Embeds the two except clauses of websocket_endpoint (src/app.py
lines 187-204).  Only WebSocketDisconnect walks the transfers, notifies
the other bound party of each affected session and schedules its
removal; every other exception merely unregisters the connection. -/
def websocket_cleanup (transfers : Store) (conns : List String) (client : String) :
    ExitCause → ExitEffect
  | .transportDisconnect =>
    let conns2 := conns.filter (fun c => decide (c ≠ client))
    let affected := transfers.filter (boundTo client)
    { transfers := transfers
      conns := conns2
      notified := collectNotifs conns2 client affected
      scheduled := affected.map (fun p => p.1) }
  | .processingError =>
    { transfers := transfers
      conns := conns.filter (fun c => decide (c ≠ client))
      notified := []
      scheduled := [] }

/-- Outcome of running the receive loop on a finite inbound script:
either every message was handled and the client then closed the
transport, or an exception escaped a handler and ended the loop early,
leaving the remaining messages unprocessed. -/
inductive LoopResult where
  | disconnected (transfers : Store) (sent : List (String × OutMsg))
  | errored (transfers : Store) (sent : List (String × OutMsg))
deriving DecidableEq, Repr

/-- The while-true receive loop of websocket_endpoint over a finite
script of inbound messages. -/
def runLoop (transfers : Store) (conns : List String) (client_id : String) :
    List InMsg → LoopResult
  | [] => .disconnected transfers []
  | m :: rest =>
    match processMessage transfers conns client_id m with
    | .ok t2 out =>
      match runLoop t2 conns client_id rest with
      | .disconnected t3 out2 => .disconnected t3 (out ++ out2)
      | .errored t3 out2 => .errored t3 (out ++ out2)
    | .raised t2 => .errored t2 []

/-- Whole-endpoint behaviour for one client whose transport delivers the
given script and then closes: run the loop, then dispatch to the except
clause matching how the loop ended. -/
def websocket_endpoint (transfers : Store) (conns : List String) (client_id : String)
    (msgs : List InMsg) : ExitEffect × List (String × OutMsg) :=
  match runLoop transfers conns client_id msgs with
  | .disconnected t2 out => (websocket_cleanup t2 conns client_id .transportDisconnect, out)
  | .errored t2 out => (websocket_cleanup t2 conns client_id .processingError, out)

/-- World state for the timed behaviour: logical time, the two shared
dictionaries, the pending delayed-removal tasks as (otp, due time)
pairs, and the log of every message delivered so far. -/
structure World where
  time : Int
  transfers : Store
  conns : List String
  pending : List (String × Int)
  sent : List (String × OutMsg)
deriving DecidableEq, Repr

/-- Events that advance the world: an OTP issuance request (which first
sweeps expired sessions), a connection accept, one inbound message on a
live connection, a transport disconnect, and the wake-up of a scheduled
removal task at its due time. -/
inductive Event where
  | createSession (picks : List (Fin 10)) (t : Int)
  | connect (client : String) (t : Int)
  | inbound (client : String) (msg : InMsg) (t : Int)
  | disconnect (client : String) (t : Int)
  | fireRemoval (otp : String) (t : Int)
deriving Repr

/-- One step of the timed system.  An inbound message whose handler
raises ends that connection through the generic except clause, which
only unregisters it; a disconnect runs the WebSocketDisconnect clause,
delivering the peer notifications and scheduling one removal per
affected session at t + graceDelay; a removal task that wakes deletes
its OTP if still present (src/app.py lines 206-211). -/
def step (w : World) : Event → World
  | .createSession picks t =>
    { w with time := t, transfers := (create_otp picks t w.transfers).2 }
  | .connect c t =>
    { w with time := t, conns := if c ∈ w.conns then w.conns else w.conns ++ [c] }
  | .inbound c m t =>
    if c ∈ w.conns then
      match processMessage w.transfers w.conns c m with
      | .ok t2 out => { w with time := t, transfers := t2, sent := w.sent ++ out }
      | .raised t2 =>
        { w with time := t, transfers := t2, conns := w.conns.filter (fun x => decide (x ≠ c)) }
    else { w with time := t }
  | .disconnect c t =>
    let e := websocket_cleanup w.transfers w.conns c .transportDisconnect
    { time := t
      transfers := e.transfers
      conns := e.conns
      pending := w.pending ++ e.scheduled.map (fun otp => (otp, t + graceDelay))
      sent := w.sent ++ e.notified }
  | .fireRemoval otp t =>
    if (otp, t) ∈ w.pending then
      { time := t
        transfers := derase w.transfers otp
        conns := w.conns
        pending := w.pending.erase (otp, t)
        sent := w.sent }
    else { w with time := t }

/-- Sample pending session with no bound parties, created at time 0. -/
def sessPending : Session :=
  { status := "pending", expires_at := 600, files := [], created_at := 0,
    sender_id := none, receiver_id := none }

/-- Sample session with sender A and receiver B bound. -/
def sessAB : Session :=
  { sessPending with sender_id := some "A", receiver_id := some "B" }

/-- Sample bound session whose expiry deadline is the early instant 2. -/
def sessShortAB : Session :=
  { sessAB with expires_at := 2 }

/-- Digit picks spelling the OTP 123456. -/
def picks123456 : List (Fin 10) := [1, 2, 3, 4, 5, 6]

/-- Digit picks spelling the OTP 999999. -/
def picks999999 : List (Fin 10) := [9, 9, 9, 9, 9, 9]

/-- Sample world: one live bound session about to expire, both parties
connected, nothing scheduled or sent yet. -/
def worldShort : World :=
  { time := 0, transfers := [("483920", sessShortAB)], conns := ["A", "B"],
    pending := [], sent := [] }

/-- Sample world: one live bound session with the default lifetime, both
parties connected. -/
def worldAB : World :=
  { time := 0, transfers := [("483920", sessAB)], conns := ["A", "B"],
    pending := [], sent := [] }

theorem dget_dinsert_self (s : Store) (k : String) (v : Session) :
    dget (dinsert s k v) k = some v := by
  induction s with
  | nil => simp [dinsert, dget]
  | cons p rest ih =>
    by_cases h : p.1 = k
    · simp [dinsert, dget, h]
    · simp [dinsert, dget, h, ih]

theorem dget_dupdate_self (s : Store) (k : String) (f : Session → Session) :
    dget (dupdate s k f) k = (dget s k).map f := by
  induction s with
  | nil => simp [dupdate, dget]
  | cons p rest ih =>
    by_cases h : p.1 = k
    · simp [dupdate, dget, h]
    · simpa [dupdate, dget, h] using ih

theorem dget_derase_self (s : Store) (k : String) :
    dget (derase s k) k = none := by
  induction s with
  | nil => simp [derase, dget]
  | cons p rest ih =>
    by_cases h : p.1 = k
    · simpa [derase, List.filter, h] using ih
    · simpa [derase, List.filter, h, dget] using ih

theorem dget_eq_none_of_notkey (s : Store) (k : String)
    (h : k ∉ s.map Prod.fst) : dget s k = none := by
  induction s with
  | nil => simp [dget]
  | cons p rest ih =>
    simp only [List.map_cons, List.mem_cons] at h
    push_neg at h
    have hp : p.1 ≠ k := fun hh => h.1 hh.symm
    simp [dget, hp, ih h.2]

theorem dget_none_filter (s : Store) (k : String) (p : String × Session → Bool)
    (h : dget s k = none) : dget (s.filter p) k = none := by
  induction s with
  | nil => simp [dget]
  | cons q rest ih =>
    simp only [dget] at h
    by_cases hq : q.1 = k
    · simp [hq] at h
    · simp only [hq, if_false] at h
      by_cases hp : p q
      · simp [List.filter, hp, dget, hq, ih h]
      · simp [List.filter, hp, ih h]

theorem dget_filter_pos (s : Store) (k : String) (v : Session)
    (p : String × Session → Bool) (h : dget s k = some v) (hp : p (k, v) = true) :
    dget (s.filter p) k = some v := by
  induction s with
  | nil => simp [dget] at h
  | cons q rest ih =>
    by_cases hq : q.1 = k
    · have hv : q.2 = v := by
        simpa [dget, hq] using h
      have hqkv : q = (k, v) := by
        cases q with
        | mk a b => simp_all
      subst hqkv
      simp [List.filter, hp, dget]
    · have h2 : dget rest k = some v := by
        simpa [dget, hq] using h
      by_cases hpq : p q
      · simp [List.filter, hpq, dget, hq, ih h2]
      · simp [List.filter, hpq, ih h2]

theorem dget_filter_neg (s : Store) (k : String) (v : Session)
    (p : String × Session → Bool) (hn : (s.map Prod.fst).Nodup)
    (h : dget s k = some v) (hp : p (k, v) = false) :
    dget (s.filter p) k = none := by
  induction s with
  | nil => simp [dget] at h
  | cons q rest ih =>
    rw [List.map_cons, List.nodup_cons] at hn
    by_cases hq : q.1 = k
    · have hv : q.2 = v := by
        simpa [dget, hq] using h
      have hqkv : q = (k, v) := by
        cases q with
        | mk a b => simp_all
      have hrest : dget rest k = none := by
        apply dget_eq_none_of_notkey
        intro hmem
        refine hn.1 ?_
        rw [hq]
        exact hmem
      subst hqkv
      simp [List.filter, hp, dget_none_filter rest k p hrest]
    · have h2 : dget rest k = some v := by
        simpa [dget, hq] using h
      by_cases hpq : p q
      · simp [List.filter, hpq, dget, hq, ih hn.2 h2]
      · simp [List.filter, hpq, ih hn.2 h2]

theorem mem_collectNotifs (conns : List String) (client : String)
    (l : List (String × Session)) (q : String × Session) (hq : q ∈ l)
    (x : String × OutMsg)
    (hx : x ∈ ifTruthySend conns (otherOf q.2 client) peerDisconnectedMsg) :
    x ∈ collectNotifs conns client l := by
  induction l with
  | nil => simp at hq
  | cons r rest ih =>
    rcases List.mem_cons.mp hq with hh | ht
    · subst hh
      exact List.mem_append.mpr (Or.inl hx)
    · exact List.mem_append.mpr (Or.inr (ih ht))

/-- C1 counterexample: with the OTP 123456 live and unexpired in the
store at the sweep instant (so live at the moment of insertion), a call
of create_otp whose draw yields 123456 still returns that OTP and
silently replaces the existing session with a fresh one, instead of
retrying or failing. -/
theorem create_otp_returns_live_otp_cex :
    (create_otp picks123456 100 [("123456", sessPending)]).1 = "123456" ∧
    dget (cleanup_expired_transfers 100 [("123456", sessPending)]) "123456" = some sessPending ∧
    dget (create_otp picks123456 100 [("123456", sessPending)]).2 "123456"
      = some (freshSession 100) ∧
    freshSession 100 ≠ sessPending := by
  refine ⟨rfl, rfl, rfl, by decide⟩

/-- C1 (amended): create_otp performs no uniqueness check at all: for
every draw, it returns the drawn OTP and stores a fresh pending session
under it unconditionally, overwriting any live session that already
held that key. -/
theorem create_otp_unconditional_insert (picks : List (Fin 10)) (now : Int) (s : Store) :
    (create_otp picks now s).1 = generate_otp picks ∧
    dget (create_otp picks now s).2 (generate_otp picks) = some (freshSession now) :=
  ⟨rfl, dget_dinsert_self _ _ _⟩

/-- C2 counterexample: a file_metadata message on an existing session
with the metadata field missing ends the receive loop at once: the run
reports the errored exit and the register_otp message queued behind the
malformed one is never processed (no otp_registered reply appears). -/
theorem malformed_metadata_kills_loop_cex :
    runLoop [("483920", sessAB)] ["A", "B"] "B"
        [.file_metadata (some "483920") none, .register_otp (some "483920") (some "sender")]
      = .errored [("483920", sessAB)] [] := by
  rfl

/-- C2 (amended): a message of unknown type, or of a known type whose
otp refers to no stored session, is dropped and the loop continues with
the remaining script unchanged; but a file_metadata message on an
existing session missing its metadata field, and a file_chunk message on
an existing session with a truthy bound target missing its chunk or
file_id field, raise an uncaught KeyError that terminates the receive
loop before any later message is processed. -/
theorem malformed_message_loop (s : Store) (conns : List String) (c : String) :
    (∀ rest, runLoop s conns c (.unknown :: rest) = runLoop s conns c rest) ∧
    (∀ o ch fid lst rest, dget s o = none →
      runLoop s conns c (.file_chunk (some o) ch fid lst :: rest) = runLoop s conns c rest) ∧
    (∀ o md rest, dget s o = none →
      runLoop s conns c (.file_metadata (some o) md :: rest) = runLoop s conns c rest) ∧
    (∀ o sess rest, dget s o = some sess →
      runLoop s conns c (.file_metadata (some o) none :: rest) = .errored s []) ∧
    (∀ o sess t rest, dget s o = some sess →
      (if sess.sender_id = some c then sess.receiver_id else sess.sender_id) = some t →
      t ≠ "" →
      runLoop s conns c (.file_chunk (some o) none none none :: rest) = .errored s []) := by
  refine ⟨?_, ?_, ?_, ?_, ?_⟩
  · intro rest
    simp only [runLoop, processMessage]
    cases hres : runLoop s conns c rest <;> simp [hres]
  · intro o ch fid lst rest h
    simp only [runLoop, processMessage, h]
    cases hres : runLoop s conns c rest <;> simp [hres]
  · intro o md rest h
    simp only [runLoop, processMessage, h]
    cases hres : runLoop s conns c rest <;> simp [hres]
  · intro o sess rest h
    simp [runLoop, processMessage, h]
  · intro o sess t rest h htgt hne
    simp [runLoop, processMessage, h, htgt, hne]

/-- C2 witness: concrete runs of the amended statement, one benign
unknown message that leaves the loop running and one malformed
file_metadata message that ends it. -/
theorem malformed_message_loop_witness :
    runLoop [("483920", sessAB)] ["A"] "A" [.unknown] = runLoop [("483920", sessAB)] ["A"] "A" []
      ∧
    runLoop [("483920", sessAB)] ["A"] "A" [.file_metadata (some "483920") none]
      = .errored [("483920", sessAB)] [] := by
  have h := malformed_message_loop [("483920", sessAB)] ["A"] "A"
  exact ⟨h.1 [], h.2.2.2.1 "483920" sessAB [] rfl⟩

/-- C4 counterexample: a sweep triggered exactly at the expiresAt
instant does not remove the session: the comparison in
cleanup_expired_transfers is strict, so Get still succeeds. -/
theorem sweep_at_expiry_instant_cex :
    sessPending.expires_at = 600 ∧
    dget (cleanup_expired_transfers 600 [("483920", sessPending)]) "483920"
      = some sessPending := by
  exact ⟨rfl, rfl⟩

/-- C4 (amended): a sweep removes a stored session exactly when the
sweep instant is strictly past its expiresAt; in particular the session
stays retrievable at every instant up to and including expiresAt, and a
sweep strictly past expiresAt makes Get return nothing. -/
theorem sweep_removes_iff_strictly_expired (s : Store) (now : Int) (otp : String)
    (sess : Session) (hn : (s.map Prod.fst).Nodup) (h : dget s otp = some sess) :
    dget (cleanup_expired_transfers now s) otp
      = if sess.expires_at < now then none else some sess := by
  by_cases hcmp : sess.expires_at < now
  · rw [if_pos hcmp]
    exact dget_filter_neg s otp sess _ hn h (by simp [hcmp])
  · rw [if_neg hcmp]
    exact dget_filter_pos s otp sess _ h (by simp [hcmp])

/-- C4 witness: a concrete store swept strictly past the deadline loses
the session, by the amended theorem. -/
theorem sweep_removes_iff_strictly_expired_witness :
    dget (cleanup_expired_transfers 601 [("483920", sessPending)]) "483920"
      = if sessPending.expires_at < 601 then none else some sessPending :=
  sweep_removes_iff_strictly_expired [("483920", sessPending)] 601 "483920" sessPending
    (by decide) rfl

/-- C3 counterexample: client B, bound as receiver of the stored
session, has its receive loop terminated by a processing exception (a
file_metadata message missing its metadata field), yet the endpoint
exits through the generic except clause: no peer_disconnected is
delivered to A and no removal is scheduled, so this loop termination
does not trigger the disconnect-grace-removal path. -/
theorem processing_error_skips_grace_cex :
    runLoop [("483920", sessAB)] ["A", "B"] "B" [.file_metadata (some "483920") none]
        = .errored [("483920", sessAB)] [] ∧
    boundTo "B" ("483920", sessAB) = true ∧
    websocket_endpoint [("483920", sessAB)] ["A", "B"] "B" [.file_metadata (some "483920") none]
      = ({ transfers := [("483920", sessAB)], conns := ["A"], notified := [], scheduled := [] },
         []) := by
  exact ⟨rfl, rfl, rfl⟩

/-- C3 (amended): only a transport-level disconnect triggers the
grace-removal path: that exit schedules removal of every session the
client is bound to and delivers peer_disconnected to the other bound
party when it is truthy and still connected, while the exit through the
generic except clause only unregisters the connection, with no
notification and nothing scheduled. -/
theorem exit_cause_gates_grace_path (transfers : Store) (conns : List String) (client : String) :
    websocket_cleanup transfers conns client .processingError
        = { transfers := transfers, conns := conns.filter (fun x => decide (x ≠ client)),
            notified := [], scheduled := [] } ∧
    ∀ otp sess, (otp, sess) ∈ transfers → boundTo client (otp, sess) = true →
      otp ∈ (websocket_cleanup transfers conns client .transportDisconnect).scheduled ∧
      ∀ o, otherOf sess client = some o → o ≠ "" →
        o ∈ conns.filter (fun x => decide (x ≠ client)) →
        (o, peerDisconnectedMsg)
          ∈ (websocket_cleanup transfers conns client .transportDisconnect).notified := by
  refine ⟨rfl, ?_⟩
  intro otp sess hmem hbound
  constructor
  · simp only [websocket_cleanup]
    exact List.mem_map.mpr ⟨(otp, sess), List.mem_filter.mpr ⟨hmem, hbound⟩, rfl⟩
  · intro o ho hne hoc
    simp only [websocket_cleanup]
    refine mem_collectNotifs _ client _ (otp, sess)
      (List.mem_filter.mpr ⟨hmem, hbound⟩) _ ?_
    have hc1 := (List.mem_filter.mp hoc).1
    have hc2 : o ≠ client := by
      simpa using (List.mem_filter.mp hoc).2
    simp [ifTruthySend, ho, hne, sendPersonal, hc1, hc2]

/-- C3 witness: in a concrete state where B is bound and A is the other
connected party, the transport-disconnect exit schedules the session
for removal and notifies A. -/
theorem exit_cause_gates_grace_path_witness :
    "483920"
        ∈ (websocket_cleanup [("483920", sessAB)] ["A", "B"] "B" .transportDisconnect).scheduled
      ∧
    ("A", peerDisconnectedMsg)
      ∈ (websocket_cleanup [("483920", sessAB)] ["A", "B"] "B" .transportDisconnect).notified := by
  have h := (exit_cause_gates_grace_path [("483920", sessAB)] ["A", "B"] "B").2 "483920" sessAB
    (by decide) (by decide)
  exact ⟨h.1, h.2 "A" rfl (by decide) (by decide)⟩

/-- C5: a file_chunk sent by the bound sender is delivered to the bound,
truthy, connected receiver with identical chunk, file_id and is_last
fields, and a file_chunk sent by the bound receiver (when it is not also
the bound sender) is delivered to the bound, truthy, connected sender
with identical fields; when the target role is unbound, nothing is
delivered to anyone and no error goes back to the originator. -/
theorem file_chunk_relay_identical (s : Store) (conns : List String) (c otp : String)
    (sess : Session) (ch : String) (fid : Nat) (lst : Bool)
    (h : dget s otp = some sess) :
    (sess.sender_id = some c →
      (∀ r, sess.receiver_id = some r → r ≠ "" → r ∈ conns →
        processMessage s conns c (.file_chunk (some otp) (some ch) (some fid) (some lst))
          = .ok s [(r, .file_chunk ch fid lst)]) ∧
      (sess.receiver_id = none →
        processMessage s conns c (.file_chunk (some otp) (some ch) (some fid) (some lst))
          = .ok s [])) ∧
    (sess.receiver_id = some c → sess.sender_id ≠ some c →
      (∀ r, sess.sender_id = some r → r ≠ "" → r ∈ conns →
        processMessage s conns c (.file_chunk (some otp) (some ch) (some fid) (some lst))
          = .ok s [(r, .file_chunk ch fid lst)]) ∧
      (sess.sender_id = none →
        processMessage s conns c (.file_chunk (some otp) (some ch) (some fid) (some lst))
          = .ok s [])) := by
  constructor
  · intro hs
    constructor
    · intro r hr hne hrc
      simp [processMessage, h, hs, hr, hne, sendPersonal, hrc]
    · intro hr
      simp [processMessage, h, hs, hr]
  · intro hrcv hsne
    constructor
    · intro r hr hne hrc
      have hrc2 : r ≠ c := by
        intro e
        exact hsne (by rw [hr, e])
      simp [processMessage, h, hr, hrc2, hne, sendPersonal, hrc]
    · intro hs
      simp [processMessage, h, hs]

/-- C5 witness: on the concrete bound session, a chunk from A reaches B
and a chunk from B reaches A, both verbatim. -/
theorem file_chunk_relay_identical_witness :
    processMessage [("483920", sessAB)] ["A", "B"] "A"
        (.file_chunk (some "483920") (some "payload") (some 7) (some true))
      = .ok [("483920", sessAB)] [("B", .file_chunk "payload" 7 true)] ∧
    processMessage [("483920", sessAB)] ["A", "B"] "B"
        (.file_chunk (some "483920") (some "payload") (some 7) (some true))
      = .ok [("483920", sessAB)] [("A", .file_chunk "payload" 7 true)] := by
  have h1 := file_chunk_relay_identical [("483920", sessAB)] ["A", "B"] "A" "483920" sessAB
    "payload" 7 true rfl
  have h2 := file_chunk_relay_identical [("483920", sessAB)] ["A", "B"] "B" "483920" sessAB
    "payload" 7 true rfl
  exact ⟨(h1.1 rfl).1 "B" rfl (by decide) (by decide),
    (h2.2 rfl (by decide)).1 "A" rfl (by decide) (by decide)⟩

/-- C6: registering a connected sender a and then a receiver b on the
same stored session replies otp_registered to each, and a receives
receiver_connected exactly once, emitted only during the receiver
registration step (the sender step emits none); and whenever no sender
is bound at receiver-registration time, no receiver_connected is
emitted at all. -/
theorem receiver_connected_exactly_once (s : Store) (conns : List String)
    (a b otp : String) (sess : Session)
    (h : dget s otp = some sess) (ha : a ∈ conns) (hane : a ≠ "") :
    (processMessage s conns a (.register_otp (some otp) (some "sender"))
        = .ok (dupdate s otp (fun x => { x with sender_id := some a }))
            [(a, senderRegistered)]) ∧
    (processMessage (dupdate s otp (fun x => { x with sender_id := some a })) conns b
        (.register_otp (some otp) (some "receiver"))
        = .ok (dupdate (dupdate s otp (fun x => { x with sender_id := some a })) otp
              (fun x => { x with receiver_id := some b }))
            [(b, receiverRegistered), (a, receiverConnectedMsg)]) ∧
    (∀ s2 sess2, dget s2 otp = some sess2 → sess2.sender_id = none →
      processMessage s2 conns b (.register_otp (some otp) (some "receiver"))
        = .ok (dupdate s2 otp (fun x => { x with receiver_id := some b }))
            [(b, receiverRegistered)]) := by
  have h1 : dget (dupdate s otp (fun x => { x with sender_id := some a })) otp
      = some { sess with sender_id := some a } := by
    rw [dget_dupdate_self, h]
    rfl
  have h2 : dget (dupdate (dupdate s otp (fun x => { x with sender_id := some a })) otp
        (fun x => { x with receiver_id := some b })) otp
      = some { sess with sender_id := some a, receiver_id := some b } := by
    rw [dget_dupdate_self, h1]
    rfl
  refine ⟨?_, ?_, ?_⟩
  · simp [processMessage, h]
  · simp [processMessage, h1, h2, ifTruthySend, hane, sendPersonal, ha]
  · intro s2 sess2 hs2 hnone
    have h3 : dget (dupdate s2 otp (fun x => { x with receiver_id := some b })) otp
        = some { sess2 with receiver_id := some b } := by
      rw [dget_dupdate_self, hs2]
      rfl
    simp [processMessage, hs2, h3, hnone, ifTruthySend]

/-- C6 witness: the two registration steps on a concrete pending
session, instantiating the main theorem. -/
theorem receiver_connected_exactly_once_witness :
    processMessage [("483920", sessPending)] ["A", "B"] "A"
        (.register_otp (some "483920") (some "sender"))
      = .ok (dupdate [("483920", sessPending)] "483920"
            (fun x => { x with sender_id := some "A" })) [("A", senderRegistered)] ∧
    processMessage (dupdate [("483920", sessPending)] "483920"
          (fun x => { x with sender_id := some "A" })) ["A", "B"] "B"
        (.register_otp (some "483920") (some "receiver"))
      = .ok (dupdate (dupdate [("483920", sessPending)] "483920"
              (fun x => { x with sender_id := some "A" })) "483920"
            (fun x => { x with receiver_id := some "B" }))
          [("B", receiverRegistered), ("A", receiverConnectedMsg)] := by
  have h := receiver_connected_exactly_once [("483920", sessPending)] ["A", "B"] "A" "B"
    "483920" sessPending rfl (by decide) (by decide)
  exact ⟨h.1, h.2.1⟩

theorem step_inbound_pending (w : World) (c : String) (m : InMsg) (t : Int) :
    (step w (.inbound c m t)).pending = w.pending := by
  simp only [step]
  by_cases hc : c ∈ w.conns
  · simp only [hc, if_true]
    cases hpm : processMessage w.transfers w.conns c m <;> simp
  · simp [hc]

theorem step_connect_pending (w : World) (c : String) (t : Int) :
    (step w (.connect c t)).pending = w.pending := by
  simp [step]

/-- C7 counterexample: B disconnects at time 0, which schedules removal
of the session at time 10 and notifies A; but an OTP issuance at time 5
sweeps the store and, the session having expired at time 2, deletes it
then — the session is absent strictly earlier than the grace delay
after the disconnect, contradicting the claimed lower bound. -/
theorem grace_window_not_lower_bound_cex :
    ("483920", (10 : Int)) ∈ (step worldShort (.disconnect "B" 0)).pending ∧
    (step worldShort (.disconnect "B" 0)).sent = [("A", peerDisconnectedMsg)] ∧
    dget (step (step worldShort (.disconnect "B" 0))
        (.createSession picks999999 5)).transfers "483920" = none ∧
    (step (step worldShort (.disconnect "B" 0)) (.createSession picks999999 5)).time = 5 ∧
    (5 : Int) < 0 + graceDelay := by
  refine ⟨by decide, rfl, rfl, rfl, by decide⟩

/-- C7 (amended): a disconnect of a client bound in exactly one session
delivers exactly one peer_disconnected to the other bound connected
party and schedules removal of that session at disconnect time plus the
grace delay; no inbound message (in particular no re-registration) and
no new connection cancels the pending removal, and when the task fires
at its due time the session is gone from the store — but the session
may disappear earlier than the grace delay through the expiry sweep. -/
theorem disconnect_schedules_unconditional_removal (w : World) (client o otp : String)
    (sess : Session) (t : Int)
    (hb : w.transfers.filter (boundTo client) = [(otp, sess)])
    (ho : otherOf sess client = some o) (hne : o ≠ "")
    (hoc : o ∈ w.conns) (honc : o ≠ client) :
    (step w (.disconnect client t)).sent = w.sent ++ [(o, peerDisconnectedMsg)] ∧
    (step w (.disconnect client t)).pending = w.pending ++ [(otp, t + graceDelay)] ∧
    (∀ c2 m t2, (step (step w (.disconnect client t)) (.inbound c2 m t2)).pending
        = (step w (.disconnect client t)).pending) ∧
    (∀ c2 t2, (step (step w (.disconnect client t)) (.connect c2 t2)).pending
        = (step w (.disconnect client t)).pending) ∧
    dget (step (step w (.disconnect client t))
        (.fireRemoval otp (t + graceDelay))).transfers otp = none := by
  have hnotif : (websocket_cleanup w.transfers w.conns client .transportDisconnect).notified
      = [(o, peerDisconnectedMsg)] := by
    simp only [websocket_cleanup, hb]
    simp [collectNotifs, ifTruthySend, ho, hne, sendPersonal, hoc, honc]
  have hsched : (websocket_cleanup w.transfers w.conns client .transportDisconnect).scheduled
      = [otp] := by
    simp [websocket_cleanup, hb]
  have hsent : (step w (.disconnect client t)).sent = w.sent ++ [(o, peerDisconnectedMsg)] := by
    simp [step, hnotif]
  have hpend : (step w (.disconnect client t)).pending
      = w.pending ++ [(otp, t + graceDelay)] := by
    simp [step, hsched]
  have hmem2 : (otp, t + graceDelay)
      ∈ w.pending ++ List.map (fun x => (x, t + graceDelay))
          (websocket_cleanup w.transfers w.conns client ExitCause.transportDisconnect).scheduled := by
    rw [hsched]
    simp
  refine ⟨hsent, hpend, fun c2 m t2 => step_inbound_pending _ c2 m t2,
    fun c2 t2 => step_connect_pending _ c2 t2, ?_⟩
  show dget (step (step w (.disconnect client t)) (.fireRemoval otp (t + graceDelay))).transfers
      otp = none
  simp only [step]
  rw [if_pos hmem2]
  exact dget_derase_self _ _

/-- C7 witness: the concrete bound world, with B disconnecting at time
0: one notification to A, one removal pending at time 10, and the
session gone once the task fires. -/
theorem disconnect_schedules_unconditional_removal_witness :
    (step worldAB (.disconnect "B" 0)).sent = worldAB.sent ++ [("A", peerDisconnectedMsg)] ∧
    (step worldAB (.disconnect "B" 0)).pending
      = worldAB.pending ++ [("483920", 0 + graceDelay)] ∧
    dget (step (step worldAB (.disconnect "B" 0))
        (.fireRemoval "483920" (0 + graceDelay))).transfers "483920" = none := by
  have h := disconnect_schedules_unconditional_removal worldAB "B" "A" "483920" sessAB 0
    (by decide) rfl (by decide) (by decide) (by decide)
  exact ⟨h.1, h.2.1, h.2.2.2.2⟩

/-- C8: when the otp field of an inbound message is missing or names no
stored session, register_otp replies one error message to the
originator with the store untouched, while file_metadata, file_chunk
and transfer_complete produce no reply, no forwarding and no state
change at all. -/
theorem unknown_otp_handling (s : Store) (conns : List String) (c : String)
    (o : Option String) (h : ∀ k, o = some k → dget s k = none) :
    (∀ role, processMessage s conns c (.register_otp o role) = .ok s [(c, invalidOtpError)]) ∧
    (∀ md, processMessage s conns c (.file_metadata o md) = .ok s []) ∧
    (∀ ch fid lst, processMessage s conns c (.file_chunk o ch fid lst) = .ok s []) ∧
    processMessage s conns c (.transfer_complete o) = .ok s [] := by
  cases o with
  | none =>
    exact ⟨fun role => rfl, fun md => rfl, fun ch fid lst => rfl, rfl⟩
  | some k =>
    have hk := h k rfl
    exact ⟨fun role => by simp [processMessage, hk], fun md => by simp [processMessage, hk],
      fun ch fid lst => by simp [processMessage, hk], by simp [processMessage, hk]⟩

/-- C8 witness: a store holding only 483920, probed with the absent OTP
999999. -/
theorem unknown_otp_handling_witness :
    processMessage [("483920", sessAB)] ["A"] "A"
        (.register_otp (some "999999") (some "sender"))
      = .ok [("483920", sessAB)] [("A", invalidOtpError)] ∧
    processMessage [("483920", sessAB)] ["A"] "A"
        (.file_chunk (some "999999") (some "x") (some 1) none)
      = .ok [("483920", sessAB)] [] := by
  have h := unknown_otp_handling [("483920", sessAB)] ["A"] "A" (some "999999")
    (by
      intro k hk
      cases hk
      rfl)
  exact ⟨h.1 (some "sender"), h.2.2.1 (some "x") (some 1) none⟩

/-- C9: a register_otp message on an existing session whose role field
is neither sender nor receiver (a missing role included) produces no
reply of any kind and leaves the store exactly as it was. -/
theorem invalid_role_silently_ignored (s : Store) (conns : List String) (c otp : String)
    (sess : Session) (role : Option String) (h : dget s otp = some sess)
    (hs : role ≠ some "sender") (hr : role ≠ some "receiver") :
    processMessage s conns c (.register_otp (some otp) role) = .ok s [] := by
  simp [processMessage, h, hs, hr]

/-- C9 witness: a concrete register_otp with the unrecognized role
observer on a stored session. -/
theorem invalid_role_silently_ignored_witness :
    processMessage [("483920", sessPending)] ["A"] "A"
        (.register_otp (some "483920") (some "observer"))
      = .ok [("483920", sessPending)] [] :=
  invalid_role_silently_ignored [("483920", sessPending)] ["A"] "A" "483920" sessPending
    (some "observer") rfl (by decide) (by decide)

/-- C10: for file_chunk and transfer_complete on an existing session the
forwarding target is computed solely from whether the originating client
equals the bound sender — receiver if equal, sender otherwise — so a
third client that is neither bound party has both message kinds
forwarded to the bound connected sender. -/
theorem forward_target_by_sender_equality (s : Store) (conns : List String) (c otp : String)
    (sess : Session) (ch : String) (fid : Nat) (lst : Bool) (h : dget s otp = some sess) :
    (processMessage s conns c (.file_chunk (some otp) (some ch) (some fid) (some lst))
        = match (if sess.sender_id = some c then sess.receiver_id else sess.sender_id) with
          | none => .ok s []
          | some t =>
            if t = "" then .ok s []
            else .ok s (sendPersonal conns t (.file_chunk ch fid lst))) ∧
    (processMessage s conns c (.transfer_complete (some otp))
        = match (if sess.sender_id = some c then sess.receiver_id else sess.sender_id) with
          | none => .ok s []
          | some t =>
            if t = "" then .ok s []
            else .ok s (sendPersonal conns t transferCompleteMsg)) ∧
    (∀ r, sess.sender_id = some r → r ≠ c → r ≠ "" → r ∈ conns →
      sess.receiver_id ≠ some c →
      processMessage s conns c (.file_chunk (some otp) (some ch) (some fid) (some lst))
          = .ok s [(r, .file_chunk ch fid lst)] ∧
      processMessage s conns c (.transfer_complete (some otp))
          = .ok s [(r, transferCompleteMsg)]) := by
  refine ⟨?_, ?_, ?_⟩
  · simp [processMessage, h]
  · simp [processMessage, h]
  · intro r hr hrc hne hmem hrec
    constructor
    · simp [processMessage, h, hr, hrc, hne, sendPersonal, hmem]
    · simp [processMessage, h, hr, hrc, hne, sendPersonal, hmem]

/-- C10 witness: the unbound client C, relaying on the concrete session
with sender A, has both message kinds delivered to A. -/
theorem forward_target_by_sender_equality_witness :
    processMessage [("483920", sessAB)] ["A", "B", "C"] "C"
        (.file_chunk (some "483920") (some "x") (some 1) (some false))
      = .ok [("483920", sessAB)] [("A", .file_chunk "x" 1 false)] ∧
    processMessage [("483920", sessAB)] ["A", "B", "C"] "C"
        (.transfer_complete (some "483920"))
      = .ok [("483920", sessAB)] [("A", transferCompleteMsg)] :=
  (forward_target_by_sender_equality [("483920", sessAB)] ["A", "B", "C"] "C" "483920"
    sessAB "x" 1 false rfl).2.2 "A" rfl (by decide) (by decide) (by decide) (by decide)

end ShareIt
